import Mathlib

/-!
Shallow embedding of the real-time messaging and signaling subsystem of the
deen-bridge backend: the chat channel (src/chats/consumers.py,
src/chats/models.py), the WebRTC signaling relay (src/core/consumers.py),
and the notification fan-out (src/notifications/consumers.py,
src/notifications/utils.py, src/notifications/models.py).

Users are identified by their numeric id (`Nat`); the persisted chat-message
store is the list of `ChatMessage` rows in creation order; the many-to-many
`read_by` relation of a message is the list of user ids attached to it, with
set semantics enforced by `m2mAdd`.  Effects of a handler (frames sent to the
socket, group joins, group broadcasts, closes) are reified as action lists.
-/

namespace DeenBridge

/-- A persisted chat message row (src/chats/models.py, `ChatMessage`).
`readBy` models the `read_by` many-to-many relation as the list of user ids. -/
structure ChatMessage where
  id : Int
  sessionId : String
  senderId : Nat
  message : String
  messageType : String
  readBy : List Nat
  isDeleted : Bool
  deriving Repr, DecidableEq

/-- The chat database: the `ChatMessage` table in creation order (which is
also `created_at` order, the model's `Meta.ordering`), the set of existing
`LiveSession` ids, and the next auto-generated primary key. -/
structure ChatDB where
  rows : List ChatMessage
  sessions : List String
  nextId : Int
  deriving Repr, DecidableEq

/-- Django ManyToMany `add`: set semantics, adding an existing member is a
no-op. -/
def m2mAdd (l : List Nat) (u : Nat) : List Nat :=
  if l.contains u then l else l ++ [u]

/-- `ChatMessage.objects.create(...)` followed by the `ChatMessage.save`
override (src/chats/models.py lines 56-63): the row is inserted with a fresh
primary key, and because `is_new` holds the sender is then added to
`read_by`.  Returns the updated database and the created row.  This is the
database part of `ChatConsumer.save_message` (src/chats/consumers.py lines
304-319). -/
def createChatMessage (db : ChatDB) (sessionId : String) (senderId : Nat)
    (message : String) (messageType : String) : ChatDB × ChatMessage :=
  let row : ChatMessage :=
    { id := db.nextId, sessionId := sessionId, senderId := senderId,
      message := message, messageType := messageType,
      readBy := m2mAdd [] senderId, isDeleted := false }
  ({ rows := db.rows ++ [row], sessions := db.sessions,
     nextId := db.nextId + 1 }, row)

/-- `ChatConsumer.get_unread_count` (src/chats/consumers.py lines 341-360):
`ChatMessage.objects.filter(session_id=..., is_deleted=False)
.exclude(read_by=user).count()`. -/
def get_unread_count (rows : List ChatMessage) (sessionId : String)
    (userId : Nat) : Nat :=
  (rows.filter (fun m =>
    m.sessionId == sessionId && !m.isDeleted && !(m.readBy.contains userId))).length

/-- The queryset predicate of `ChatConsumer.mark_messages_read`
(src/chats/consumers.py lines 362-389): non-deleted messages of the session
the user has not read, further restricted by `id__lte=message_id` only when
`message_id` is truthy (`if message_id:` — Python truthiness, so `None` and
`0` apply no ceiling). -/
def markPred (sessionId : String) (userId : Nat) (messageId : Option Int)
    (m : ChatMessage) : Bool :=
  m.sessionId == sessionId && !m.isDeleted && !(m.readBy.contains userId) &&
    (match messageId with
     | some i => if i == 0 then true else decide (m.id ≤ i)
     | none => true)

/-- `ChatConsumer.mark_messages_read` (src/chats/consumers.py lines 362-389):
adds the user to `read_by` of every message matching `markPred` and returns
the number of messages so marked, together with the updated table. -/
def mark_messages_read (rows : List ChatMessage) (sessionId : String)
    (userId : Nat) (messageId : Option Int) : Nat × List ChatMessage :=
  ((rows.filter (markPred sessionId userId messageId)).length,
   rows.map (fun m =>
     if markPred sessionId userId messageId m then
       { m with readBy := m2mAdd m.readBy userId }
     else m))

/-- `ChatConsumer.get_chat_history` (src/chats/consumers.py lines 326-339):
non-deleted messages of the session ordered by `-created_at`, truncated to
`limit`, then reversed back to chronological order. -/
def get_chat_history (rows : List ChatMessage) (sessionId : String)
    (limit : Nat) : List ChatMessage :=
  (((rows.filter (fun m => m.sessionId == sessionId && !m.isDeleted)).reverse).take
    limit).reverse

/-- The unread count as the specification words it: the number of messages
`m` with `m.session = session`, `¬ m.deleted` and `user ∉ read_by(m)`
(spec section 8).  Stated independently of `get_unread_count` so the two can
be compared. -/
def unreadSpec (rows : List ChatMessage) (sessionId : String)
    (userId : Nat) : Nat :=
  rows.countP (fun m =>
    m.sessionId == sessionId && m.isDeleted == false && !(m.readBy.contains userId))

/-! ## Chat channel state machine (src/chats/consumers.py) -/

/-- Frames the chat consumer writes to its own socket. -/
inductive ChatFrame where
  | connectionEstablished (message : String) (sessionId : String)
  | chatMessage (msg : ChatMessage) (unreadCount : Option Nat)
  | chatHistory (messages : List ChatMessage) (unreadCount : Nat)
  | messagesMarkedRead (markedCount : Nat) (unreadCount : Nat)
  | errorMsg (message : String)
  deriving Repr, DecidableEq

/-- Events published on the channel layer by the chat consumer. -/
inductive ChatEvent where
  | chatMessageBroadcast (msg : ChatMessage) (senderId : Nat)
  | userJoined (userId : Nat)
  | userLeft (userId : Nat)
  | userTyping (userId : Nat) (isTyping : Bool)
  deriving Repr, DecidableEq

/-- Observable effects of a chat handler invocation. `close none` is a close
without an explicit code (the WebSocket default, 1000). -/
inductive ChatAction where
  | accept
  | close (code : Option Nat)
  | send (f : ChatFrame)
  | groupAdd (key : String)
  | groupSend (key : String) (ev : ChatEvent)
  deriving Repr, DecidableEq

/-- Per-connection state of `ChatConsumer`.  `userId` is meaningful only when
`isFullyConnected` is true (an anonymous connection is closed before any
handler that reads it can run, and `chatReceive` guards on the flag first). -/
structure ChatState where
  sessionId : String
  userId : Nat
  roomGroupName : String
  isFullyConnected : Bool
  deriving Repr, DecidableEq

/-- `ChatConsumer.connect` (src/chats/consumers.py lines 13-97) with the
channel layer available: the room group name is built from the raw
client-supplied session id with no validation; an unauthenticated user is
closed with code 4001 before `accept`; otherwise the socket is accepted, the
room group joined, `connection_established` sent, and `user_joined`
broadcast. -/
def chatConnect (sessionId : String) (user : Option Nat) :
    ChatState × List ChatAction :=
  let roomGroup := "chat.session." ++ sessionId
  match user with
  | none =>
      ({ sessionId := sessionId, userId := 0, roomGroupName := roomGroup,
         isFullyConnected := false },
       [ChatAction.close (some 4001)])
  | some uid =>
      ({ sessionId := sessionId, userId := uid, roomGroupName := roomGroup,
         isFullyConnected := true },
       [ChatAction.accept,
        ChatAction.groupAdd roomGroup,
        ChatAction.send (ChatFrame.connectionEstablished "Connected to chat" sessionId),
        ChatAction.groupSend roomGroup (ChatEvent.userJoined uid)])

/-- Inbound chat frames after JSON decoding and `type` dispatch.
`markRead none` models an absent or JSON-null `message_id`. -/
inductive ChatInbound where
  | chatMessage (message : String)
  | typing (isTyping : Bool)
  | getHistory (limit : Nat)
  | markRead (messageId : Option Int)
  | other
  deriving Repr, DecidableEq

/-- `ChatConsumer.receive` (src/chats/consumers.py lines 125-253).  The input
`none` models a frame that is not valid JSON (`json.JSONDecodeError`).  A
`LiveSession.objects.get` on a session id not in `db.sessions` raises
`DoesNotExist`, caught by the blanket handler as a generic error frame. -/
def chatReceive (st : ChatState) (db : ChatDB) (inp : Option ChatInbound) :
    ChatDB × List ChatAction :=
  if !st.isFullyConnected then
    (db, [ChatAction.send (ChatFrame.errorMsg
      "Connection not fully established. Please reconnect. (Redis may not be running)")])
  else
    match inp with
    | none =>
        (db, [ChatAction.send (ChatFrame.errorMsg "Invalid message format")])
    | some (ChatInbound.chatMessage message) =>
        let text := message.trim
        if text == "" then
          (db, [ChatAction.send (ChatFrame.errorMsg "Message cannot be empty")])
        else if db.sessions.contains st.sessionId then
          let saved := createChatMessage db st.sessionId st.userId text "text"
          (saved.1, [ChatAction.groupSend st.roomGroupName
            (ChatEvent.chatMessageBroadcast saved.2 st.userId)])
        else
          (db, [ChatAction.send (ChatFrame.errorMsg "Failed to process message")])
    | some (ChatInbound.typing isTyping) =>
        (db, [ChatAction.groupSend st.roomGroupName
          (ChatEvent.userTyping st.userId isTyping)])
    | some (ChatInbound.getHistory limit) =>
        (db, [ChatAction.send (ChatFrame.chatHistory
          (get_chat_history db.rows st.sessionId limit)
          (get_unread_count db.rows st.sessionId st.userId))])
    | some (ChatInbound.markRead messageId) =>
        if db.sessions.contains st.sessionId then
          let res := mark_messages_read db.rows st.sessionId st.userId messageId
          ({ db with rows := res.2 },
           [ChatAction.send (ChatFrame.messagesMarkedRead res.1
             (get_unread_count res.2 st.sessionId st.userId))])
        else
          (db, [ChatAction.send (ChatFrame.errorMsg "Failed to process message")])
    | some ChatInbound.other => (db, [])

/-- `ChatConsumer.chat_message_broadcast` (src/chats/consumers.py lines
255-271): the frame delivered to one room member.  `rows` is the message
table at delivery time; a non-sender gets their unread count recomputed from
it, the sender gets no count. -/
def chat_message_broadcast (rows : List ChatMessage) (sessionId : String)
    (userId : Nat) (msg : ChatMessage) (senderId : Nat) : ChatFrame :=
  if senderId == userId then
    ChatFrame.chatMessage msg none
  else
    ChatFrame.chatMessage msg (some (get_unread_count rows sessionId userId))

/-! ## Group-key validation and the WebRTC signaling relay
(src/core/consumers.py) -/

/-- A character allowed by `VALID_GROUP_RE = ^[A-Za-z0-9_.-]+$`. -/
def isGroupChar (c : Char) : Bool :=
  c.isAlpha || c.isDigit || c == '.' || c == '-' || c == '_'

/-- Whether `VALID_GROUP_RE.match(s)` succeeds: one or more allowed
characters spanning the whole string, stated over the string's character
list.  Python's `$` also matches just before a single trailing newline,
which this definition reproduces. -/
def validSegment (s : String) : Bool :=
  let cs := s.data
  let core := if cs.getLast? == some (Char.ofNat 10) then cs.dropLast else cs
  core != [] && core.all isGroupChar

/-- `_validate_segment` (src/core/consumers.py lines 7-12): returns the
segment, or `none` for the raised `ValueError`. -/
def validate_segment (seg : String) : Option String :=
  if validSegment seg then some seg else none

/-- `room_group_name` (src/core/consumers.py lines 14-15). -/
def room_group_name (roomId : String) : Option String :=
  (validate_segment roomId).map (fun s => "room." ++ s)

/-- `peer_group_name` (src/core/consumers.py lines 17-18); the room segment
is validated first, so its failure masks the client segment. -/
def peer_group_name (roomId clientId : String) : Option String :=
  match validate_segment roomId with
  | none => none
  | some r =>
      match validate_segment clientId with
      | none => none
      | some c => some ("room." ++ r ++ ".peer." ++ c)

/-- A signaling envelope as the relay reads it: `content.get("type")`,
`content.get("from")`, `content.get("to")`.  The relay forwards the decoded
JSON object verbatim, which this embedding represents by the envelope
itself. -/
structure SigEnvelope where
  etype : Option String
  fromLabel : Option String
  toLabel : Option String
  deriving Repr, DecidableEq

/-- Per-connection state of `WebRTCSignalingConsumer`: the raw room id, the
validated room group key, and the peer id registered by a `ready` frame. -/
structure SigState where
  roomId : String
  roomGroup : String
  clientId : Option String
  deriving Repr, DecidableEq

/-- Observable effects of a signaling handler invocation. -/
inductive SigAction where
  | accept
  | close (code : Option Nat)
  | groupAdd (key : String)
  | groupSend (key : String) (payload : SigEnvelope)
  deriving Repr, DecidableEq

/-- Python truthiness of an optional string (`if sender`, `if target`):
false for an absent value and for the empty string. -/
def optTruthy : Option String → Bool
  | some s => s != ""
  | none => false

/-- `WebRTCSignalingConsumer.connect` (src/core/consumers.py lines 28-39):
an invalid room id makes `room_group_name` raise inside the `try`, closing
with 4001; otherwise the socket is accepted and the room group joined. -/
def sigConnect (sessionId : String) : Option SigState × List SigAction :=
  match room_group_name sessionId with
  | none => (none, [SigAction.close (some 4001)])
  | some g =>
      (some { roomId := sessionId, roomGroup := g, clientId := none },
       [SigAction.accept, SigAction.groupAdd g])

/-- `WebRTCSignalingConsumer.receive` (src/core/consumers.py lines 50-90).
`none` models malformed JSON, swallowed silently.  On `ready` with a truthy
`from` and no registered peer, `self.client_id` is assigned before
`peer_group_name` is evaluated, so it stays assigned even when validation
raises (the exception also skips the room broadcast).  On
offer/answer/ice-candidate, a truthy `to` routes to the peer mailbox (a
validation failure is swallowed, sending nothing); otherwise the envelope is
broadcast to the room.  Any other type falls through silently. -/
def sigReceive (st : SigState) (inp : Option SigEnvelope) :
    SigState × List SigAction :=
  match inp with
  | none => (st, [])
  | some env =>
    if env.etype == some "ready" then
      if optTruthy env.fromLabel && st.clientId.isNone then
        let cid := env.fromLabel.getD ""
        let st2 := { st with clientId := some cid }
        match peer_group_name st.roomId cid with
        | some key =>
            (st2, [SigAction.groupAdd key,
                   SigAction.groupSend st.roomGroup env])
        | none => (st2, [])
      else
        (st, [SigAction.groupSend st.roomGroup env])
    else if env.etype == some "offer" || env.etype == some "answer"
        || env.etype == some "ice-candidate" then
      if optTruthy env.toLabel then
        match peer_group_name st.roomId (env.toLabel.getD "") with
        | some key => (st, [SigAction.groupSend key env])
        | none => (st, [])
      else
        (st, [SigAction.groupSend st.roomGroup env])
    else
      (st, [])

/-! ## Notification fan-out (src/notifications/consumers.py,
src/notifications/utils.py, src/notifications/models.py) -/

/-- A persisted `Notification` row (src/notifications/models.py).
`sentAt` is the `timezone.now()` timestamp, abstracted to a `Nat`. -/
structure Notification where
  userId : Nat
  channel : String
  ntype : String
  title : String
  body : String
  metadata : List (String × String)
  actionUrl : Option String
  status : String
  sentAt : Nat
  deriving Repr, DecidableEq

/-- Frames the notification consumer writes to its socket. -/
inductive NotifFrame where
  | connectionEstablished
  | pong
  | errorMsg (message : String)
  | newNotification (n : Notification)
  deriving Repr, DecidableEq

/-- Observable effects of a notification-consumer handler invocation.
`close none` is `self.close()` with no code: the default code 1000. -/
inductive NotifAction where
  | accept
  | close (code : Option Nat)
  | send (f : NotifFrame)
  | groupAdd (key : String)
  deriving Repr, DecidableEq

/-- The close code the peer observes: an explicit code, or the WebSocket
default 1000 when `self.close()` is called without one. -/
def effectiveCloseCode : Option Nat → Nat
  | some c => c
  | none => 1000

/-- `NotificationConsumer.connect` (src/notifications/consumers.py lines
10-34): an authenticated user joins `notifications_<id>`, is accepted and
greeted; an anonymous user gets `self.close()` with no code. -/
def notifConnect (user : Option Nat) : List NotifAction :=
  match user with
  | some uid =>
      [NotifAction.groupAdd ("notifications_" ++ toString uid),
       NotifAction.accept,
       NotifAction.send NotifFrame.connectionEstablished]
  | none => [NotifAction.close none]

/-- Inbound notification-channel frames after JSON decoding. -/
inductive NotifInbound where
  | ping
  | other
  deriving Repr, DecidableEq

/-- `NotificationConsumer.receive` (src/notifications/consumers.py lines
45-60): `none` models a `json.JSONDecodeError`. -/
def notifReceive (inp : Option NotifInbound) : List NotifAction :=
  match inp with
  | none => [NotifAction.send (NotifFrame.errorMsg "Invalid JSON")]
  | some NotifInbound.ping => [NotifAction.send NotifFrame.pong]
  | some NotifInbound.other => []

/-- Store-and-publish events traced by `send_notification`, in program
order. -/
inductive NotifEvent where
  | persist (n : Notification)
  | publishAttempt (group : String) (ok : Bool)
  deriving Repr, DecidableEq

/-- The channel-layer `group_send`, which either succeeds or raises;
`transportOk` abstracts whether the underlying transport is reachable. -/
def publishToGroup (transportOk : Bool) : Except String Unit :=
  if transportOk then Except.ok () else Except.error "transport failure"

/-- `send_notification` (src/notifications/utils.py lines 12-62): persist a
row with `status=NotificationStatus.SENT`, then try to publish to
`notifications_<user.id>`; a publish exception is printed and swallowed, and
the created notification is returned either way.  Result: the updated store
and returned row, with the trace of events in program order. -/
def send_notification (store : List Notification) (now : Nat)
    (transportOk : Bool) (userId : Nat) (title body : String)
    (notificationType channel : String) (actionUrl : Option String)
    (metadata : Option (List (String × String))) :
    (List Notification × Notification) × List NotifEvent :=
  let n : Notification :=
    { userId := userId, channel := channel, ntype := notificationType,
      title := title, body := body,
      metadata := metadata.getD [], actionUrl := actionUrl,
      status := "sent", sentAt := now }
  let store2 := store ++ [n]
  let groupKey := "notifications_" ++ toString userId
  match publishToGroup transportOk with
  | Except.ok _ =>
      ((store2, n), [NotifEvent.persist n, NotifEvent.publishAttempt groupKey true])
  | Except.error _ =>
      ((store2, n), [NotifEvent.persist n, NotifEvent.publishAttempt groupKey false])

/-! ## Helper lemmas -/

lemma m2mAdd_contains_self (l : List Nat) (u : Nat) :
    (m2mAdd l u).contains u = true := by
  unfold m2mAdd
  by_cases h : u ∈ l
  · simp [h]
  · simp [h]

lemma m2mAdd_not_mem (l : List Nat) (u : Nat) (h : l.contains u = false) :
    m2mAdd l u = l ++ [u] := by
  have hm : u ∉ l := by simpa using h
  unfold m2mAdd
  simp [hm]

lemma markPred_mark_elem (sid : String) (uid : Nat) (mid : Option Int)
    (m : ChatMessage) :
    markPred sid uid mid
      (if markPred sid uid mid m then { m with readBy := m2mAdd m.readBy uid }
       else m) = false := by
  cases hb : markPred sid uid mid m with
  | false => simp [hb]
  | true =>
      have hmm : uid ∈ m2mAdd m.readBy uid := by
        simpa using m2mAdd_contains_self m.readBy uid
      simp [hb, markPred, hmm]

lemma mark_rows_filter_nil (rows : List ChatMessage) (sid : String)
    (uid : Nat) (mid : Option Int) :
    ((mark_messages_read rows sid uid mid).2).filter (markPred sid uid mid)
      = [] := by
  unfold mark_messages_read
  rw [List.filter_eq_nil_iff]
  intro a ha
  rw [List.mem_map] at ha
  obtain ⟨m, _, rfl⟩ := ha
  simp [markPred_mark_elem]

lemma mark_rows_map_fix (rows : List ChatMessage) (sid : String)
    (uid : Nat) (mid : Option Int) :
    ((mark_messages_read rows sid uid mid).2).map
      (fun m => if markPred sid uid mid m then
          { m with readBy := m2mAdd m.readBy uid } else m)
      = (mark_messages_read rows sid uid mid).2 := by
  unfold mark_messages_read
  rw [List.map_map]
  apply List.map_congr_left
  intro m _
  simp only [Function.comp_apply]
  rw [if_neg]
  rw [markPred_mark_elem]
  simp

lemma mark_messages_read_twice (rows : List ChatMessage) (sid : String)
    (uid : Nat) (mid : Option Int) :
    mark_messages_read ((mark_messages_read rows sid uid mid).2) sid uid mid
      = (0, (mark_messages_read rows sid uid mid).2) := by
  have h1 := mark_rows_filter_nil rows sid uid mid
  have h2 := mark_rows_map_fix rows sid uid mid
  have hdef : mark_messages_read ((mark_messages_read rows sid uid mid).2) sid uid mid
      = ((((mark_messages_read rows sid uid mid).2).filter (markPred sid uid mid)).length,
         ((mark_messages_read rows sid uid mid).2).map
           (fun m => if markPred sid uid mid m then
              { m with readBy := m2mAdd m.readBy uid } else m)) := rfl
  rw [hdef, h1, h2]
  rfl

lemma markPred_none_eq (sid : String) (uid : Nat) (m : ChatMessage) :
    markPred sid uid none m
      = (m.sessionId == sid && !m.isDeleted && !(m.readBy.contains uid)) := by
  unfold markPred
  simp

lemma markPred_zero_funext (sid : String) (uid : Nat) :
    markPred sid uid (some 0) = markPred sid uid none := by
  funext m
  unfold markPred
  simp

lemma get_unread_count_eq_filter_none (rows : List ChatMessage)
    (sid : String) (uid : Nat) :
    get_unread_count rows sid uid
      = (rows.filter (markPred sid uid none)).length := by
  unfold get_unread_count
  congr 1
  apply List.filter_congr
  intro m _
  rw [markPred_none_eq]

lemma mark_zero_eq_none (rows : List ChatMessage) (sid : String) (uid : Nat) :
    mark_messages_read rows sid uid (some 0)
      = mark_messages_read rows sid uid none := by
  unfold mark_messages_read
  rw [markPred_zero_funext]

lemma unread_after_mark_none (rows : List ChatMessage) (sid : String)
    (uid : Nat) :
    get_unread_count ((mark_messages_read rows sid uid none).2) sid uid = 0 := by
  rw [get_unread_count_eq_filter_none, mark_rows_filter_nil]
  rfl

lemma marked_none_eq_unread (rows : List ChatMessage) (sid : String)
    (uid : Nat) :
    (mark_messages_read rows sid uid none).1
      = get_unread_count rows sid uid := by
  rw [get_unread_count_eq_filter_none]
  rfl

lemma markPred_false_of_read {sid : String} {uid : Nat} {mid : Option Int}
    {m : ChatMessage} (h : m.readBy.contains uid = true) :
    markPred sid uid mid m = false := by
  unfold markPred
  have hm : uid ∈ m.readBy := by simpa using h
  simp [hm]

lemma markPred_false_of_deleted {sid : String} {uid : Nat} {mid : Option Int}
    {m : ChatMessage} (h : m.isDeleted = true) :
    markPred sid uid mid m = false := by
  unfold markPred
  simp [h]

lemma markPred_false_of_other_session {sid : String} {uid : Nat}
    {mid : Option Int} {m : ChatMessage} (h : m.sessionId ≠ sid) :
    markPred sid uid mid m = false := by
  unfold markPred
  have hbe : (m.sessionId == sid) = false := by simpa using h
  simp [hbe]

lemma markPred_false_of_above_ceiling {sid : String} {uid : Nat} {i : Int}
    {m : ChatMessage} (hne0 : i ≠ 0) (hlt : i < m.id) :
    markPred sid uid (some i) m = false := by
  unfold markPred
  have hle : ¬(m.id ≤ i) := not_le.mpr hlt
  simp [hne0, hle]

lemma markPred_true_some {sid : String} {uid : Nat} {i : Int}
    {m : ChatMessage} (hsid : m.sessionId = sid) (hdel : m.isDeleted = false)
    (hread : m.readBy.contains uid = false) (hle : m.id ≤ i) :
    markPred sid uid (some i) m = true := by
  unfold markPred
  have hm : uid ∉ m.readBy := by simpa using hread
  simp [hsid, hdel, hm, hle]

lemma markPred_not_read {sid : String} {uid : Nat} {mid : Option Int}
    {m : ChatMessage} (h : markPred sid uid mid m = true) :
    m.readBy.contains uid = false := by
  unfold markPred at h
  simp only [Bool.and_eq_true, Bool.not_eq_true'] at h
  exact h.1.2

lemma mark_rows_get (rows : List ChatMessage) (sid : String) (uid : Nat)
    (mid : Option Int) (k : Nat) (hk : k < rows.length)
    (hk2 : k < (mark_messages_read rows sid uid mid).2.length) :
    (mark_messages_read rows sid uid mid).2.get ⟨k, hk2⟩
      = (if markPred sid uid mid (rows.get ⟨k, hk⟩) then
          { rows.get ⟨k, hk⟩ with
            readBy := m2mAdd (rows.get ⟨k, hk⟩).readBy uid }
         else rows.get ⟨k, hk⟩) := by
  simp [mark_messages_read, List.get_eq_getElem]

lemma peer_group_name_eq {roomId clientId key : String}
    (h : peer_group_name roomId clientId = some key) :
    key = "room." ++ roomId ++ ".peer." ++ clientId := by
  unfold peer_group_name validate_segment at h
  by_cases h1 : validSegment roomId = true
  · by_cases h2 : validSegment clientId = true
    · simp [h1, h2] at h
      exact h.symm
    · simp [h1, h2] at h
  · simp [h1] at h

lemma peer_key_ne_room_group (roomId t : String) :
    "room." ++ roomId ++ ".peer." ++ t ≠ "room." ++ roomId := by
  intro h
  have hlen := congrArg String.length h
  have h6 : String.length ".peer." = 6 := rfl
  simp [String.length_append] at hlen
  omega

lemma get_unread_count_eq_spec (rows : List ChatMessage) (sid : String)
    (uid : Nat) :
    get_unread_count rows sid uid = unreadSpec rows sid uid := by
  unfold get_unread_count unreadSpec
  rw [List.countP_eq_length_filter]
  congr 1
  apply List.filter_congr
  intro m _
  cases h : m.isDeleted <;> simp [h]

/-! ## Claim theorems -/

/-- C2: every chat message persisted through `createChatMessage` (the
embedding of `ChatConsumer.save_message` together with the
`ChatMessage.save` override) has its sender in its read-by set immediately
after creation: the returned row and the row appended to the table both
contain the sender, and the sender's unread count is unaffected by the new
message — a freshly created message is never unread for its own sender. -/
theorem C2_sender_auto_read (db : ChatDB) (sid : String) (sender : Nat)
    (text mt : String) :
    (createChatMessage db sid sender text mt).2.senderId
        ∈ (createChatMessage db sid sender text mt).2.readBy
    ∧ ((createChatMessage db sid sender text mt).2.readBy.contains
        (createChatMessage db sid sender text mt).2.senderId = true)
    ∧ (createChatMessage db sid sender text mt).1.rows
        = db.rows ++ [(createChatMessage db sid sender text mt).2]
    ∧ get_unread_count (createChatMessage db sid sender text mt).1.rows sid sender
        = get_unread_count db.rows sid sender
    ∧ unreadSpec (createChatMessage db sid sender text mt).1.rows sid sender
        = unreadSpec db.rows sid sender := by
  refine ⟨?_, ?_, rfl, ?_, ?_⟩
  · simp [createChatMessage, m2mAdd]
  · simp [createChatMessage, m2mAdd]
  · simp [createChatMessage, get_unread_count, List.filter_append, m2mAdd]
  · rw [← get_unread_count_eq_spec, ← get_unread_count_eq_spec]
    simp [createChatMessage, get_unread_count, List.filter_append, m2mAdd]

/-- C4: `mark_messages_read` is idempotent — immediately repeating the call
with the same session, user and ceiling marks 0 messages, leaves the table
identical, and so leaves the requester's recomputed unread count unchanged
from the first call's result. -/
theorem C4_mark_read_idempotent (rows : List ChatMessage) (sid : String)
    (uid : Nat) (mid : Option Int) :
    (mark_messages_read ((mark_messages_read rows sid uid mid).2) sid uid mid).1 = 0
    ∧ (mark_messages_read ((mark_messages_read rows sid uid mid).2) sid uid mid).2
        = (mark_messages_read rows sid uid mid).2
    ∧ get_unread_count
        (mark_messages_read ((mark_messages_read rows sid uid mid).2) sid uid mid).2
        sid uid
      = get_unread_count (mark_messages_read rows sid uid mid).2 sid uid := by
  have h := mark_messages_read_twice rows sid uid mid
  refine ⟨?_, ?_, ?_⟩
  · rw [h]
  · rw [h]
  · rw [h]

/-- C10: a `mark_read` with a supplied `message_id` ceiling of 0 behaves
exactly like a `mark_read` with no ceiling (`if message_id:` is Python
truthiness): the database operation is identical, every unread non-deleted
message of the session ends up read (unread count 0), and the whole
`receive` handler produces identical results. -/
theorem C10_falsy_ceiling (rows : List ChatMessage) (sid : String) (uid : Nat)
    (st : ChatState) (db : ChatDB) :
    mark_messages_read rows sid uid (some 0) = mark_messages_read rows sid uid none
    ∧ get_unread_count ((mark_messages_read rows sid uid (some 0)).2) sid uid = 0
    ∧ chatReceive st db (some (ChatInbound.markRead (some 0)))
        = chatReceive st db (some (ChatInbound.markRead none)) := by
  refine ⟨mark_zero_eq_none rows sid uid, ?_, ?_⟩
  · rw [mark_zero_eq_none]
    exact unread_after_mark_none rows sid uid
  · unfold chatReceive
    cases st.isFullyConnected <;> simp [mark_zero_eq_none]

/-- C9: `send_notification` persists a row with status `sent` (appended to
the store), the persist event precedes the publish attempt in program
order, the created row is returned to the caller, and neither the persisted
store nor the returned value depends on whether the publish succeeded. -/
theorem C9_notification_persist_then_publish (store : List Notification)
    (now : Nat) (transportOk : Bool) (uid : Nat)
    (title body ntype channel : String) (actionUrl : Option String)
    (metadata : Option (List (String × String))) :
    (∃ n : Notification,
      (send_notification store now transportOk uid title body ntype channel
        actionUrl metadata).1.1 = store ++ [n]
      ∧ n.status = "sent"
      ∧ (send_notification store now transportOk uid title body ntype channel
          actionUrl metadata).1.2 = n)
    ∧ (send_notification store now transportOk uid title body ntype channel
        actionUrl metadata).2
      = [NotifEvent.persist (send_notification store now transportOk uid title
            body ntype channel actionUrl metadata).1.2,
         NotifEvent.publishAttempt ("notifications_" ++ toString uid) transportOk]
    ∧ (send_notification store now true uid title body ntype channel
        actionUrl metadata).1
      = (send_notification store now false uid title body ntype channel
          actionUrl metadata).1 := by
  cases transportOk with
  | false =>
      refine ⟨⟨_, rfl, rfl, rfl⟩, rfl, rfl⟩
  | true =>
      refine ⟨⟨_, rfl, rfl, rfl⟩, rfl, rfl⟩

/-- C1: the unread count is the cardinality of the set of non-deleted
session messages not read by the user (`get_unread_count` equals the
spec-side `unreadSpec`), and every operation that reports an unread count
recomputes it from the message table passed at the time of the call:
`chat_message_broadcast` delivery to a non-sender, the `get_history`
response, and the `mark_read` response (which recomputes on the
post-update table). -/
theorem C1_unread_count_recomputed (rows : List ChatMessage) (sid : String)
    (uid sender : Nat) (msg : ChatMessage) (st : ChatState) (db : ChatDB)
    (limit : Nat) (mid : Option Int)
    (hne : uid ≠ sender) (hst : st.isFullyConnected = true) :
    get_unread_count rows sid uid = unreadSpec rows sid uid
    ∧ chat_message_broadcast rows sid uid msg sender
        = ChatFrame.chatMessage msg (some (unreadSpec rows sid uid))
    ∧ chatReceive st db (some (ChatInbound.getHistory limit))
        = (db, [ChatAction.send (ChatFrame.chatHistory
            (get_chat_history db.rows st.sessionId limit)
            (unreadSpec db.rows st.sessionId st.userId))])
    ∧ (db.sessions.contains st.sessionId = true →
        chatReceive st db (some (ChatInbound.markRead mid))
          = ({ db with rows := (mark_messages_read db.rows st.sessionId st.userId mid).2 },
             [ChatAction.send (ChatFrame.messagesMarkedRead
                (mark_messages_read db.rows st.sessionId st.userId mid).1
                (unreadSpec (mark_messages_read db.rows st.sessionId st.userId mid).2
                  st.sessionId st.userId))])) := by
  refine ⟨get_unread_count_eq_spec rows sid uid, ?_, ?_, ?_⟩
  · unfold chat_message_broadcast
    have hbe : (sender == uid) = false := by
      simpa using fun h => hne h.symm
    rw [hbe]
    simp [get_unread_count_eq_spec]
  · unfold chatReceive
    rw [hst]
    simp [get_unread_count_eq_spec]
  · intro hsess
    have hmem : st.sessionId ∈ db.sessions := by simpa using hsess
    unfold chatReceive
    rw [hst]
    simp [hmem, get_unread_count_eq_spec]

/-- C1 witness: the theorem applied at a concrete store, session, receiver 0
and sender 1, with both hypotheses discharged concretely. -/
theorem C1_unread_count_recomputed_witness :
    get_unread_count
        [{ id := 1, sessionId := "s1", senderId := 1, message := "hello",
           messageType := "text", readBy := [1], isDeleted := false }] "s1" 0
      = unreadSpec
        [{ id := 1, sessionId := "s1", senderId := 1, message := "hello",
           messageType := "text", readBy := [1], isDeleted := false }] "s1" 0
    ∧ chat_message_broadcast
        [{ id := 1, sessionId := "s1", senderId := 1, message := "hello",
           messageType := "text", readBy := [1], isDeleted := false }] "s1" 0
        { id := 1, sessionId := "s1", senderId := 1, message := "hello",
          messageType := "text", readBy := [1], isDeleted := false } 1
      = ChatFrame.chatMessage
          { id := 1, sessionId := "s1", senderId := 1, message := "hello",
            messageType := "text", readBy := [1], isDeleted := false }
          (some (unreadSpec
            [{ id := 1, sessionId := "s1", senderId := 1, message := "hello",
               messageType := "text", readBy := [1], isDeleted := false }] "s1" 0))
    ∧ chatReceive
        { sessionId := "s1", userId := 0, roomGroupName := "chat.session.s1",
          isFullyConnected := true }
        { rows := [], sessions := ["s1"], nextId := 1 }
        (some (ChatInbound.getHistory 50))
      = ({ rows := [], sessions := ["s1"], nextId := 1 },
         [ChatAction.send (ChatFrame.chatHistory
            (get_chat_history ([] : List ChatMessage) "s1" 50)
            (unreadSpec ([] : List ChatMessage) "s1" 0))])
    ∧ (({ rows := [], sessions := ["s1"], nextId := 1 } : ChatDB).sessions.contains
          ({ sessionId := "s1", userId := 0, roomGroupName := "chat.session.s1",
             isFullyConnected := true } : ChatState).sessionId = true →
        chatReceive
          { sessionId := "s1", userId := 0, roomGroupName := "chat.session.s1",
            isFullyConnected := true }
          { rows := [], sessions := ["s1"], nextId := 1 }
          (some (ChatInbound.markRead none))
          = ({ rows := (mark_messages_read ([] : List ChatMessage) "s1" 0 none).2,
               sessions := ["s1"], nextId := 1 },
             [ChatAction.send (ChatFrame.messagesMarkedRead
                (mark_messages_read ([] : List ChatMessage) "s1" 0 none).1
                (unreadSpec (mark_messages_read ([] : List ChatMessage) "s1" 0 none).2
                  "s1" 0))])) :=
  C1_unread_count_recomputed
    [{ id := 1, sessionId := "s1", senderId := 1, message := "hello",
       messageType := "text", readBy := [1], isDeleted := false }] "s1" 0 1
    { id := 1, sessionId := "s1", senderId := 1, message := "hello",
      messageType := "text", readBy := [1], isDeleted := false }
    { sessionId := "s1", userId := 0, roomGroupName := "chat.session.s1",
      isFullyConnected := true }
    { rows := [], sessions := ["s1"], nextId := 1 } 50 none
    (by decide) (by decide)

/-- C3 counterexample: with a single unread non-deleted message of id 1 and
a supplied ceiling `message_id = 0`, the claim would allow only messages
with id ≤ 0 to be marked, yet the code marks the id-1 message (marked count
1, user 2 added to its read-by set) even though 1 ≤ 0 is false. -/
theorem C3_counterexample :
    (mark_messages_read
      [{ id := 1, sessionId := "s", senderId := 1, message := "hi",
         messageType := "text", readBy := [1], isDeleted := false }]
      "s" 2 (some 0)).1 = 1
    ∧ (mark_messages_read
        [{ id := 1, sessionId := "s", senderId := 1, message := "hi",
           messageType := "text", readBy := [1], isDeleted := false }]
        "s" 2 (some 0)).2
      = [{ id := 1, sessionId := "s", senderId := 1, message := "hi",
           messageType := "text", readBy := [1, 2], isDeleted := false }]
    ∧ ¬((1 : Int) ≤ 0) := by
  refine ⟨?_, ?_, by decide⟩
  · rfl
  · simp [mark_messages_read, markPred, m2mAdd]

/-- C3 (amended): `mark_read` adds the requester to the read-by set of every
non-deleted unread message of the session; a supplied `message_id` ceiling
restricts marking to messages with id ≤ ceiling only when it is nonzero
(a falsy ceiling such as 0 or null is treated as no ceiling); messages
already read by the requester, deleted messages, messages of other
sessions, and messages above a nonzero ceiling are unchanged; and the
response reports the marked count together with the recomputed unread
count. -/
theorem C3_mark_read_amended (rows : List ChatMessage) (sid : String)
    (uid : Nat) (mid : Option Int) (st : ChatState) (db : ChatDB)
    (hst : st.isFullyConnected = true) (hsid : st.sessionId = sid)
    (huid : st.userId = uid) (hrows : db.rows = rows)
    (hsess : db.sessions.contains sid = true) :
    ((mark_messages_read rows sid uid mid).2.length = rows.length)
    ∧ (mid = none →
        (mark_messages_read rows sid uid mid).1 = get_unread_count rows sid uid
        ∧ get_unread_count (mark_messages_read rows sid uid mid).2 sid uid = 0)
    ∧ (∀ k, ∀ (hk : k < rows.length),
        ∀ (hk2 : k < (mark_messages_read rows sid uid mid).2.length),
        ((rows.get ⟨k, hk⟩).readBy.contains uid = true →
            (mark_messages_read rows sid uid mid).2.get ⟨k, hk2⟩ = rows.get ⟨k, hk⟩)
        ∧ ((rows.get ⟨k, hk⟩).isDeleted = true →
            (mark_messages_read rows sid uid mid).2.get ⟨k, hk2⟩ = rows.get ⟨k, hk⟩)
        ∧ ((rows.get ⟨k, hk⟩).sessionId ≠ sid →
            (mark_messages_read rows sid uid mid).2.get ⟨k, hk2⟩ = rows.get ⟨k, hk⟩)
        ∧ (∀ i : Int, mid = some i → i ≠ 0 → i < (rows.get ⟨k, hk⟩).id →
            (mark_messages_read rows sid uid mid).2.get ⟨k, hk2⟩ = rows.get ⟨k, hk⟩)
        ∧ (markPred sid uid mid (rows.get ⟨k, hk⟩) = true →
            (mark_messages_read rows sid uid mid).2.get ⟨k, hk2⟩
              = { rows.get ⟨k, hk⟩ with
                  readBy := (rows.get ⟨k, hk⟩).readBy ++ [uid] })
        ∧ (∀ i : Int, mid = some i → i ≠ 0 →
            (rows.get ⟨k, hk⟩).sessionId = sid →
            (rows.get ⟨k, hk⟩).isDeleted = false →
            (rows.get ⟨k, hk⟩).readBy.contains uid = false →
            (rows.get ⟨k, hk⟩).id ≤ i →
            ((mark_messages_read rows sid uid mid).2.get ⟨k, hk2⟩).readBy.contains uid
              = true))
    ∧ chatReceive st db (some (ChatInbound.markRead mid))
        = ({ db with rows := (mark_messages_read rows sid uid mid).2 },
           [ChatAction.send (ChatFrame.messagesMarkedRead
              (mark_messages_read rows sid uid mid).1
              (get_unread_count (mark_messages_read rows sid uid mid).2 sid uid))]) := by
  subst hsid huid hrows
  refine ⟨?_, ?_, ?_, ?_⟩
  · simp [mark_messages_read]
  · rintro rfl
    exact ⟨marked_none_eq_unread _ _ _, unread_after_mark_none _ _ _⟩
  · intro k hk hk2
    have hget := mark_rows_get db.rows st.sessionId st.userId mid k hk hk2
    refine ⟨?_, ?_, ?_, ?_, ?_, ?_⟩
    · intro h
      rw [hget, if_neg]
      rw [markPred_false_of_read h]
      simp
    · intro h
      rw [hget, if_neg]
      rw [markPred_false_of_deleted h]
      simp
    · intro h
      rw [hget, if_neg]
      rw [markPred_false_of_other_session h]
      simp
    · rintro i rfl hne0 hlt
      rw [hget, if_neg]
      rw [markPred_false_of_above_ceiling hne0 hlt]
      simp
    · intro h
      rw [hget, if_pos]
      · rw [m2mAdd_not_mem _ _ (markPred_not_read h)]
      · rw [h]
    · rintro i rfl hne0 hsid2 hdel hread hle
      rw [hget, if_pos]
      · exact m2mAdd_contains_self _ _
      · rw [markPred_true_some hsid2 hdel hread hle]
  · have hmem : st.sessionId ∈ db.sessions := by simpa using hsess
    unfold chatReceive
    rw [hst]
    simp [hmem]

/-- C3 witness: the amended theorem applied at a concrete store (one unread
message), session "s", user 2 and ceiling 3, with every hypothesis
discharged on concrete values; the extracted conjunct shows the table
length is preserved. -/
theorem C3_mark_read_amended_witness :
    (mark_messages_read
      [{ id := 1, sessionId := "s", senderId := 1, message := "hi",
         messageType := "text", readBy := [1], isDeleted := false }]
      "s" 2 (some 3)).2.length
      = ([{ id := 1, sessionId := "s", senderId := 1, message := "hi",
            messageType := "text", readBy := [1], isDeleted := false }]
         : List ChatMessage).length :=
  (C3_mark_read_amended
    [{ id := 1, sessionId := "s", senderId := 1, message := "hi",
       messageType := "text", readBy := [1], isDeleted := false }]
    "s" 2 (some 3)
    ({ sessionId := "s", userId := 2, roomGroupName := "chat.session.s",
       isFullyConnected := true } : ChatState)
    ({ rows := [{ id := 1, sessionId := "s", senderId := 1, message := "hi",
                  messageType := "text", readBy := [1], isDeleted := false }],
       sessions := ["s"], nextId := 2 } : ChatDB)
    rfl rfl rfl rfl (by decide)).1

/-- C5 counterexample: the chat channel performs no group-key validation —
connecting with the client-supplied session id `bad!id` (allowed by the
route pattern `[^/]+`) joins the group `chat.session.bad!id`, whose
characters are outside the restricted set (`!` is not allowed), so a join
is performed with a key that was never validated. -/
theorem C5_counterexample :
    ChatAction.groupAdd "chat.session.bad!id" ∈ (chatConnect "bad!id" (some 7)).2
    ∧ validSegment "bad!id" = false
    ∧ validSegment "chat.session.bad!id" = false := by
  refine ⟨?_, by decide, by decide⟩
  simp [chatConnect]

/-- C5 (amended): only the signaling relay validates group-key segments
before use — an invalid session id causes `connect` to close without any
join, an invalid truthy `to` or `from` segment causes `receive` to perform
no group operation at all — while the chat channel joins its room group
built from the raw session id for every session id without validation, and
the notification channel joins its per-user group without any validation
call. -/
theorem C5_group_key_validation_amended (s : String) (st : SigState)
    (env : SigEnvelope) (sessionId : String) (uid : Nat) (t f : String) :
    (validSegment s = false →
        sigConnect s = (none, [SigAction.close (some 4001)]))
    ∧ (validSegment s = true →
        sigConnect s
          = (some { roomId := s, roomGroup := "room." ++ s, clientId := none },
             [SigAction.accept, SigAction.groupAdd ("room." ++ s)]))
    ∧ ((env.etype = some "offer" ∨ env.etype = some "answer"
          ∨ env.etype = some "ice-candidate") →
        env.toLabel = some t → t ≠ "" → validSegment t = false →
        (sigReceive st (some env)).2 = [])
    ∧ (env.etype = some "ready" → env.fromLabel = some f → f ≠ "" →
        st.clientId = none → validSegment f = false →
        (sigReceive st (some env)).2 = [])
    ∧ ChatAction.groupAdd ("chat.session." ++ sessionId)
        ∈ (chatConnect sessionId (some uid)).2
    ∧ NotifAction.groupAdd ("notifications_" ++ toString uid)
        ∈ notifConnect (some uid) := by
  refine ⟨?_, ?_, ?_, ?_, ?_, ?_⟩
  · intro h
    unfold sigConnect room_group_name validate_segment
    rw [h]
    rfl
  · intro h
    unfold sigConnect room_group_name validate_segment
    rw [h]
    rfl
  · intro hty hto ht hvt
    have htb : (t != "") = true := by simpa using ht
    rcases hty with h | h | h <;>
      cases hr : validSegment st.roomId <;>
        simp [sigReceive, h, hto, optTruthy, htb, peer_group_name,
          validate_segment, hr, hvt]
  · intro hty hfrom hf hcid hvf
    have hfb : (f != "") = true := by simpa using hf
    cases hr : validSegment st.roomId <;>
      simp [sigReceive, hty, hfrom, hcid, optTruthy, hfb, peer_group_name,
        validate_segment, hr, hvf]
  · simp [chatConnect]
  · simp [notifConnect]

/-- C5 witness: the amended theorem applied at concrete inputs; the
extracted conjunct shows the signaling relay closes the connection when the
session id `bad room` (which fails validation) is supplied, performing no
join. -/
theorem C5_group_key_validation_amended_witness :
    sigConnect "bad room" = (none, [SigAction.close (some 4001)]) :=
  (C5_group_key_validation_amended "bad room"
    ({ roomId := "7", roomGroup := "room.7", clientId := none } : SigState)
    ({ etype := some "offer", fromLabel := some "A", toLabel := some "x y" }
      : SigEnvelope)
    "42" 7 "x y" "p q").1 (by decide)

/-- C6 counterexample: an anonymous connection to the notification channel
is rejected by `self.close()` with no close code, so the peer observes the
default close code 1000 — not a code distinct from 1000 as the claim
requires for both identity-gated channels. -/
theorem C6_counterexample :
    notifConnect none = [NotifAction.close none]
    ∧ effectiveCloseCode none = 1000 := ⟨rfl, rfl⟩

/-- C6 (amended): an anonymous chat connection is closed at connect time
with code 4001 (distinct from 1000) without being accepted and with its
state never fully connected, so a subsequent receive touches nothing and
only reports an error; an anonymous notification connection is closed
without being accepted, but by a bare `close()` whose effective close code
is the default 1000. -/
theorem C6_anonymous_reject_amended (sid : String) (db : ChatDB)
    (inp : Option ChatInbound) (st : ChatState) :
    (chatConnect sid none).2 = [ChatAction.close (some 4001)]
    ∧ effectiveCloseCode (some 4001) ≠ 1000
    ∧ ChatAction.accept ∉ (chatConnect sid none).2
    ∧ (chatConnect sid none).1.isFullyConnected = false
    ∧ (st.isFullyConnected = false →
        (chatReceive st db inp).1 = db
        ∧ (chatReceive st db inp).2
            = [ChatAction.send (ChatFrame.errorMsg
                "Connection not fully established. Please reconnect. (Redis may not be running)")])
    ∧ notifConnect none = [NotifAction.close none]
    ∧ NotifAction.accept ∉ notifConnect none
    ∧ effectiveCloseCode none = 1000 := by
  refine ⟨rfl, by decide, by simp [chatConnect], rfl, ?_, rfl, by simp [notifConnect], rfl⟩
  intro h
  unfold chatReceive
  rw [h]
  exact ⟨rfl, rfl⟩

/-- C6 witness: the amended theorem applied at a concrete session, database
and not-fully-connected state; the extracted conjunct shows such a receive
leaves the store untouched. -/
theorem C6_anonymous_reject_amended_witness :
    (chatReceive
      ({ sessionId := "s", userId := 0, roomGroupName := "chat.session.s",
         isFullyConnected := false } : ChatState)
      ({ rows := [], sessions := [], nextId := 1 } : ChatDB) none).1
      = ({ rows := [], sessions := [], nextId := 1 } : ChatDB) :=
  ((C6_anonymous_reject_amended "s"
    ({ rows := [], sessions := [], nextId := 1 } : ChatDB) none
    ({ sessionId := "s", userId := 0, roomGroupName := "chat.session.s",
       isFullyConnected := false } : ChatState)).2.2.2.2.1 rfl).1

/-- C7 counterexample: an offer envelope carrying the `to` label `""` (a
present but empty label, falsy in Python) is broadcast to the full room
group `room.7` rather than being published only to a peer mailbox. -/
theorem C7_counterexample :
    (sigReceive
      ({ roomId := "7", roomGroup := "room.7", clientId := some "A" } : SigState)
      (some ({ etype := some "offer", fromLabel := some "A", toLabel := some "" }
        : SigEnvelope))).2
      = [SigAction.groupSend "room.7"
          ({ etype := some "offer", fromLabel := some "A", toLabel := some "" }
            : SigEnvelope)]
    ∧ (({ etype := some "offer", fromLabel := some "A", toLabel := some "" }
          : SigEnvelope).toLabel ≠ none) := by
  exact ⟨by decide, by decide⟩

/-- C7 (amended): for offer/answer/ice-candidate envelopes, a non-empty
`to` label is never broadcast to the room group — the envelope goes only to
the peer mailbox keyed by (room, to) when both segments validate, and is
silently dropped otherwise; an absent or empty `to` label is broadcast to
the room group; envelopes of any other type are silently ignored with no
action. -/
theorem C7_signaling_routing_amended (st : SigState) (env : SigEnvelope)
    (t : String) (hconn : st.roomGroup = "room." ++ st.roomId) :
    ((env.etype = some "offer" ∨ env.etype = some "answer"
        ∨ env.etype = some "ice-candidate") →
      ((env.toLabel = some t → t ≠ "" →
          (∀ key, peer_group_name st.roomId t = some key →
              (sigReceive st (some env)).2 = [SigAction.groupSend key env]
              ∧ key ≠ st.roomGroup)
          ∧ (peer_group_name st.roomId t = none →
              (sigReceive st (some env)).2 = [])
          ∧ (∀ payload, SigAction.groupSend st.roomGroup payload
              ∉ (sigReceive st (some env)).2))
       ∧ (env.toLabel = none →
            (sigReceive st (some env)).2 = [SigAction.groupSend st.roomGroup env])
       ∧ (env.toLabel = some "" →
            (sigReceive st (some env)).2 = [SigAction.groupSend st.roomGroup env])))
    ∧ (env.etype ≠ some "ready" → env.etype ≠ some "offer"
        → env.etype ≠ some "answer" → env.etype ≠ some "ice-candidate" →
        sigReceive st (some env) = (st, [])) := by
  constructor
  · intro hty
    refine ⟨?_, ?_, ?_⟩
    · intro hto ht
      have htb : (t != "") = true := by simpa using ht
      refine ⟨?_, ?_, ?_⟩
      · intro key hkey
        have hne : key ≠ st.roomGroup := by
          rw [peer_group_name_eq hkey, hconn]
          exact peer_key_ne_room_group _ _
        refine ⟨?_, hne⟩
        rcases hty with h | h | h <;>
          simp [sigReceive, h, hto, optTruthy, htb, hkey]
      · intro hkey
        rcases hty with h | h | h <;>
          simp [sigReceive, h, hto, optTruthy, htb, hkey]
      · intro payload hmem
        cases hkey : peer_group_name st.roomId t with
        | some key =>
            have heq : (sigReceive st (some env)).2
                = [SigAction.groupSend key env] := by
              rcases hty with h | h | h <;>
                simp [sigReceive, h, hto, optTruthy, htb, hkey]
            rw [heq] at hmem
            simp at hmem
            have hne : key ≠ st.roomGroup := by
              rw [peer_group_name_eq hkey, hconn]
              exact peer_key_ne_room_group _ _
            exact hne hmem.1.symm
        | none =>
            have heq : (sigReceive st (some env)).2 = [] := by
              rcases hty with h | h | h <;>
                simp [sigReceive, h, hto, optTruthy, htb, hkey]
            rw [heq] at hmem
            simp at hmem
    · intro hto
      rcases hty with h | h | h <;>
        simp [sigReceive, h, hto, optTruthy]
    · intro hto
      rcases hty with h | h | h <;>
        simp [sigReceive, h, hto, optTruthy]
  · intro h1 h2 h3 h4
    cases henv : env.etype with
    | none => simp [sigReceive, henv]
    | some s =>
        rw [henv] at h1 h2 h3 h4
        have hs1 : s ≠ "ready" := fun h => h1 (by rw [h])
        have hs2 : s ≠ "offer" := fun h => h2 (by rw [h])
        have hs3 : s ≠ "answer" := fun h => h3 (by rw [h])
        have hs4 : s ≠ "ice-candidate" := fun h => h4 (by rw [h])
        simp [sigReceive, henv, hs1, hs2, hs3, hs4]

/-- C7 witness: the amended theorem applied in room 7 to an offer directed
at peer B, with all hypotheses discharged concretely: the envelope goes
only to the mailbox `room.7.peer.B`, which is not the room group. -/
theorem C7_signaling_routing_amended_witness :
    (sigReceive
      ({ roomId := "7", roomGroup := "room.7", clientId := some "A" } : SigState)
      (some ({ etype := some "offer", fromLabel := some "A", toLabel := some "B" }
        : SigEnvelope))).2
      = [SigAction.groupSend "room.7.peer.B"
          ({ etype := some "offer", fromLabel := some "A", toLabel := some "B" }
            : SigEnvelope)]
    ∧ "room.7.peer.B" ≠ "room.7" :=
  (((C7_signaling_routing_amended
      ({ roomId := "7", roomGroup := "room.7", clientId := some "A" } : SigState)
      ({ etype := some "offer", fromLabel := some "A", toLabel := some "B" }
        : SigEnvelope)
      "B" rfl).1 (Or.inl rfl)).1 rfl (by decide)).1 "room.7.peer.B" (by decide)

/-- C8 counterexample: on a frame that is not valid JSON, the notification
channel replies with the error message `Invalid JSON`, not with the
`Invalid message format` frame the claim requires for all three
channels. -/
theorem C8_counterexample :
    notifReceive none = [NotifAction.send (NotifFrame.errorMsg "Invalid JSON")]
    ∧ "Invalid JSON" ≠ "Invalid message format" :=
  ⟨rfl, by decide⟩

/-- C8 (amended): a non-JSON frame on a fully connected chat channel yields
the error frame `Invalid message format` without closing and without
touching the store; the notification channel replies with an error frame
whose message is `Invalid JSON` (not `Invalid message format`) without
closing; the signaling relay swallows it silently with no action at all. -/
theorem C8_invalid_json_amended (st : ChatState) (db : ChatDB)
    (sst : SigState) (h : st.isFullyConnected = true) :
    chatReceive st db none
      = (db, [ChatAction.send (ChatFrame.errorMsg "Invalid message format")])
    ∧ (∀ c, ChatAction.close c ∉ (chatReceive st db none).2)
    ∧ notifReceive none = [NotifAction.send (NotifFrame.errorMsg "Invalid JSON")]
    ∧ (∀ c, NotifAction.close c ∉ notifReceive none)
    ∧ sigReceive sst none = (sst, []) := by
  have heq : chatReceive st db none
      = (db, [ChatAction.send (ChatFrame.errorMsg "Invalid message format")]) := by
    unfold chatReceive
    rw [h]
    rfl
  refine ⟨heq, ?_, rfl, ?_, rfl⟩
  · intro c
    rw [heq]
    simp
  · intro c
    simp [notifReceive]

/-- C8 witness: the amended theorem applied to a concrete fully connected
chat state and empty store, with the hypothesis discharged by rfl. -/
theorem C8_invalid_json_amended_witness :
    chatReceive
      ({ sessionId := "s", userId := 1, roomGroupName := "chat.session.s",
         isFullyConnected := true } : ChatState)
      ({ rows := [], sessions := [], nextId := 1 } : ChatDB) none
      = (({ rows := [], sessions := [], nextId := 1 } : ChatDB),
         [ChatAction.send (ChatFrame.errorMsg "Invalid message format")]) :=
  (C8_invalid_json_amended
    ({ sessionId := "s", userId := 1, roomGroupName := "chat.session.s",
       isFullyConnected := true } : ChatState)
    ({ rows := [], sessions := [], nextId := 1 } : ChatDB)
    ({ roomId := "7", roomGroup := "room.7", clientId := none } : SigState)
    rfl).1

end DeenBridge
